import Mathlib

/-!
Shallow embedding of the OpenClapp Convex backend (`convex/clapApi.ts`).

Timestamps and millisecond durations are modelled as `Int` (JS `Date.now()`
values), and percentages as `ℚ` (the percentage arithmetic on integer inputs
is exact rational arithmetic).  A Convex mutation that throws aborts its
transaction, so a failing call is modelled as `Except.error` carrying no new
database state.  Table iteration order (`ctx.db.query(...).first()` /
`.collect()`) is modelled as the order of an association list.
-/

namespace OpenClapp

/-- One row of the `agents` table (`convex/schema.ts`). -/
structure Agent where
  name : String
  xHandle : Option String
  xVerified : Bool
  isClapping : Bool
  cumulativeClapMs : Int
  lastStateChangedAt : Int
  lastHeartbeatAt : Int
  createdAt : Int
  updatedAt : Int
deriving DecidableEq, Repr

/-- Event type union `"started" | "stopped"` of the `clapEvents` table. -/
inductive EventType where
  | started
  | stopped
deriving DecidableEq, Repr

/-- One row of the `clapEvents` table. -/
structure ClapEvent where
  agentId : Nat
  agentName : String
  type : EventType
  createdAt : Int
deriving DecidableEq, Repr

/-- Embeds `normalizeXHandle` from `clapApi.ts`: trim, strip one leading `@`,
lowercase. -/
def normalizeXHandle (raw : String) : String :=
  let t := raw.trim
  (if t.startsWith "@" then t.drop 1 else t).toLower

/-- Embeds `clampPct` from `clapApi.ts`: `Math.max(0, Math.min(100, value))`. -/
def clampPct (value : ℚ) : ℚ :=
  max 0 (min 100 value)

/-- Embeds `computeAgentPct` from `clapApi.ts`. -/
def computeAgentPct (agent : Agent) (now : Int) : ℚ :=
  let elapsed : Int := max 1 (now - agent.createdAt)
  let liveClapMs : Int :=
    if agent.isClapping then max 0 (now - agent.lastStateChangedAt) else 0
  clampPct ((((agent.cumulativeClapMs + liveClapMs : Int) : ℚ) / (elapsed : ℚ)) * 100)

/-- Embeds `registerAgent`: the freshly inserted agent row.  The JS truthiness test
`args.xHandle ?` treats the empty string as absent. -/
def registerAgent (name : String) (xHandle : Option String) (now : Int) : Agent :=
  { name := name.trim
    xHandle :=
      match xHandle with
      | some s => if s ≠ "" then some (normalizeXHandle s) else none
      | none => none
    xVerified := false
    isClapping := false
    cumulativeClapMs := 0
    lastStateChangedAt := now
    lastHeartbeatAt := now
    createdAt := now
    updatedAt := now }

/-- Result of a clap-state mutation: the patched agent row, the clap event
inserted (if any), and the returned `changed` flag. -/
structure MutResult where
  agent : Agent
  event : Option ClapEvent
  changed : Bool
deriving DecidableEq, Repr

/-- Embeds `setClappingState` from `clapApi.ts`, acting on the agent row it read
(`agentId` is the row's id, used in the inserted event). -/
def setClappingState (a : Agent) (agentId : Nat) (clapping : Bool) (now : Int) :
    MutResult :=
  let cumulativeClapMs : Int :=
    if a.isClapping ∧ ¬clapping then
      a.cumulativeClapMs + max 0 (now - a.lastStateChangedAt)
    else a.cumulativeClapMs
  let changed : Bool := a.isClapping != clapping
  { agent :=
      { a with
        isClapping := clapping
        cumulativeClapMs := cumulativeClapMs
        lastStateChangedAt := if changed then now else a.lastStateChangedAt
        lastHeartbeatAt := now
        updatedAt := now }
    event :=
      if changed then
        some ⟨agentId, a.name, if clapping then .started else .stopped, now⟩
      else none
    changed := changed }

/-- Embeds `heartbeat` from `clapApi.ts`: with a boolean it repeats the
`setClappingState` body, without one it only refreshes the timestamps. -/
def heartbeat (a : Agent) (agentId : Nat) (clapping : Option Bool) (now : Int) :
    MutResult :=
  match clapping with
  | some c =>
    let cumulativeClapMs : Int :=
      if a.isClapping ∧ ¬c then
        a.cumulativeClapMs + max 0 (now - a.lastStateChangedAt)
      else a.cumulativeClapMs
    let changed : Bool := a.isClapping != c
    { agent :=
        { a with
          isClapping := c
          cumulativeClapMs := cumulativeClapMs
          lastStateChangedAt := if changed then now else a.lastStateChangedAt
          lastHeartbeatAt := now
          updatedAt := now }
      event :=
        if changed then
          some ⟨agentId, a.name, if c then .started else .stopped, now⟩
        else none
      changed := changed }
  | none =>
    { agent := { a with lastHeartbeatAt := now, updatedAt := now }
      event := none
      changed := false }

/-- Aggregate result of the `getCurrentStats` query. -/
structure Stats where
  totalAgents : Nat
  totalAgentsVerified : Nat
  totalAgentsUnverified : Nat
  clappingNow : Nat
  clappingNowVerified : Nat
  clappingNowUnverified : Nat
  currentClappingPct : ℚ
  currentClappingPctVerified : ℚ
  currentClappingPctUnverified : ℚ
  lifetimeClappingPctOverall : ℚ
  lifetimeClappingPctVerified : ℚ
  lifetimeClappingPctUnverified : ℚ
deriving DecidableEq, Repr

/-- The `groupPct` closure inside `getCurrentStats`: pooled
`(elapsed, clap)` sums accumulated by a fold, then
`clampPct((clap / max(1, elapsed)) * 100)`; `0` for an empty subset. -/
def groupPct (subset : List Agent) (now : Int) : ℚ :=
  if subset.isEmpty then 0
  else
    let totals := subset.foldl
      (fun acc agent =>
        let elapsed : Int := max 1 (now - agent.createdAt)
        let liveClapMs : Int :=
          if agent.isClapping then max 0 (now - agent.lastStateChangedAt) else 0
        (acc.1 + elapsed, acc.2 + agent.cumulativeClapMs + liveClapMs))
      ((0 : Int), (0 : Int))
    clampPct ((((totals.2 : Int) : ℚ) / ((max 1 totals.1 : Int) : ℚ)) * 100)

/-- Live-count ratio `count ? (clapping / count) * 100 : 0` used by
`getCurrentStats`. -/
def liveRatioPct (clapping count : Nat) : ℚ :=
  if count = 0 then 0 else ((clapping : ℚ) / (count : ℚ)) * 100

/-- Embeds `getCurrentStats` from `clapApi.ts` over the collected `agents` table. -/
def getCurrentStats (agents : List Agent) (now : Int) : Stats :=
  let total := agents.length
  let clappingNow := (agents.filter (fun a => a.isClapping)).length
  let verified := agents.filter (fun a => a.xVerified)
  let unverified := agents.filter (fun a => ¬a.xVerified)
  let clappingNowVerified := (verified.filter (fun a => a.isClapping)).length
  let clappingNowUnverified := (unverified.filter (fun a => a.isClapping)).length
  { totalAgents := total
    totalAgentsVerified := verified.length
    totalAgentsUnverified := unverified.length
    clappingNow := clappingNow
    clappingNowVerified := clappingNowVerified
    clappingNowUnverified := clappingNowUnverified
    currentClappingPct := liveRatioPct clappingNow total
    currentClappingPctVerified := liveRatioPct clappingNowVerified verified.length
    currentClappingPctUnverified := liveRatioPct clappingNowUnverified unverified.length
    lifetimeClappingPctOverall := groupPct agents now
    lifetimeClappingPctVerified := groupPct verified now
    lifetimeClappingPctUnverified := groupPct unverified now }

/-- An item of the `listAgents` result page. -/
structure AgentListItem where
  name : String
  xHandle : Option String
  xVerified : Bool
  isClapping : Bool
  createdAt : Int
  clapPct : ℚ
deriving DecidableEq, Repr

/-- The `normalized` list built by `listAgents` (filter by `verifiedOnly`,
then project each agent with its computed `clapPct`) before sorting and
pagination. -/
def listAgentsNormalized (agents : List Agent) (verifiedOnly : Bool) (now : Int) :
    List AgentListItem :=
  (agents.filter (fun a => if verifiedOnly then a.xVerified else true)).map
    (fun a => ⟨a.name, a.xHandle, a.xVerified, a.isClapping, a.createdAt,
      computeAgentPct a now⟩)

/-- One row of the `xVerificationChallenges` table. -/
structure Challenge where
  agentId : Nat
  xHandle : String
  challengeText : String
  createdAt : Int
  expiresAt : Int
  completedAt : Option Int
  matchedPostUrl : Option String
deriving DecidableEq, Repr

/-- The database state the verification mutations touch: the `agents` and
`xVerificationChallenges` tables as association lists keyed by document id. -/
structure DB where
  agents : List (Nat × Agent)
  challenges : List (Nat × Challenge)
deriving DecidableEq, Repr

/-- Embeds `ctx.db.get` on the `agents` table. -/
def getAgent (db : DB) (i : Nat) : Option Agent :=
  (db.agents.find? (fun p => p.1 == i)).map (fun p => p.2)

/-- Embeds `ctx.db.get` on the `xVerificationChallenges` table. -/
def getChallenge (db : DB) (i : Nat) : Option Challenge :=
  (db.challenges.find? (fun p => p.1 == i)).map (fun p => p.2)

/-- Embeds `ctx.db.patch` on the `agents` table: update the row with the given id. -/
def patchAgent (db : DB) (i : Nat) (f : Agent → Agent) : DB :=
  { db with agents := db.agents.map (fun p => if p.1 == i then (p.1, f p.2) else p) }

/-- Embeds `ctx.db.patch` on the `xVerificationChallenges` table. -/
def patchChallenge (db : DB) (i : Nat) (f : Challenge → Challenge) : DB :=
  { db with
    challenges := db.challenges.map (fun p => if p.1 == i then (p.1, f p.2) else p) }

/-- The `existingOwner` query of the verification mutations: first agent with
`xVerified = true` and `xHandle = handle`. -/
def existingVerifiedOwner (db : DB) (handle : String) : Option (Nat × Agent) :=
  db.agents.find? (fun p => p.2.xVerified && p.2.xHandle == some handle)

/-- JS truthiness of the optional-number field read
`if (challenge.completedAt)`: `undefined` and `0` are falsy. -/
def numTruthy : Option Int → Bool
  | none => false
  | some t => t != 0

/-- The errors the verification mutations throw. -/
inductive VerifError where
  | agentNotFound
  | challengeNotFound
  | alreadyCompleted
  | expired
  | handleConflict
deriving DecidableEq, Repr

/-- The agent patch applied by `createXVerificationChallenge`. -/
def applyChallengeHandlePatch (handle : String) (now : Int) (a : Agent) : Agent :=
  { a with xHandle := some handle, updatedAt := now }

/-- The agent patch applied by `completeXVerificationChallenge` on success. -/
def applyVerifiedPatch (handle : String) (now : Int) (a : Agent) : Agent :=
  { a with xHandle := some handle, xVerified := true, updatedAt := now }

/-- Embeds `createXVerificationChallenge` from `clapApi.ts`; `newId` is the id
Convex assigns to the inserted challenge row. -/
def createXVerificationChallenge (db : DB) (agentId : Nat)
    (xHandle challengeText : String) (expiresAt : Int) (now : Int) (newId : Nat) :
    Except VerifError (DB × Nat) :=
  match getAgent db agentId with
  | none => .error .agentNotFound
  | some _ =>
    let normalizedHandle := normalizeXHandle xHandle
    let conflict :=
      match existingVerifiedOwner db normalizedHandle with
      | some (ownerId, _) => ownerId != agentId
      | none => false
    if conflict then .error .handleConflict
    else
      let db1 :=
        { db with
          challenges :=
            (newId,
              ⟨agentId, normalizedHandle, challengeText, now, expiresAt, none, none⟩)
              :: db.challenges }
      .ok (patchAgent db1 agentId (applyChallengeHandlePatch normalizedHandle now), newId)

/-- Embeds `completeXVerificationChallenge` from `clapApi.ts`.  A thrown error
aborts the transaction, so an `Except.error` result carries no new state. -/
def completeXVerificationChallenge (db : DB) (challengeId : Nat)
    (matchedPostUrl : Option String) (now : Int) : Except VerifError DB :=
  match getChallenge db challengeId with
  | none => .error .challengeNotFound
  | some challenge =>
    if numTruthy challenge.completedAt then .error .alreadyCompleted
    else if challenge.expiresAt < now then .error .expired
    else
      let conflict :=
        match existingVerifiedOwner db challenge.xHandle with
        | some (ownerId, _) => ownerId != challenge.agentId
        | none => false
      if conflict then .error .handleConflict
      else
        let db1 := patchChallenge db challengeId
          (fun c => { c with completedAt := some now, matchedPostUrl := matchedPostUrl })
        .ok (patchAgent db1 challenge.agentId
          (applyVerifiedPatch challenge.xHandle now))

/-- The projection returned by `getAgentById`. -/
structure AgentView where
  name : String
  xHandle : Option String
  xVerified : Bool
  isClapping : Bool
  clapPct : ℚ
  createdAt : Int
  lastHeartbeatAt : Int
deriving DecidableEq, Repr

/-- Embeds `getAgentById` from `clapApi.ts` (`null` becomes `none`). -/
def getAgentById (db : DB) (agentId : Nat) (now : Int) : Option AgentView :=
  (getAgent db agentId).map
    (fun a => ⟨a.name, a.xHandle, a.xVerified, a.isClapping,
      computeAgentPct a now, a.createdAt, a.lastHeartbeatAt⟩)

/-- The `range` argument of `getClapRateHistory`. -/
inductive HistoryRange where
  | hour
  | day
  | week
  | month
  | all
deriving DecidableEq, Repr

/-- The `windows` lookback table of `getClapRateHistory`, in milliseconds. -/
def windowMs : HistoryRange → Int
  | .hour => 60 * 60 * 1000
  | .day => 24 * 60 * 60 * 1000
  | .week => 7 * 24 * 60 * 60 * 1000
  | .month => 30 * 24 * 60 * 60 * 1000
  | .all => 3650 * 24 * 60 * 60 * 1000

/-- The `maxPoints` chart budget of `getClapRateHistory`. -/
def maxPointsFor : HistoryRange → Nat
  | .hour => 120
  | .day => 200
  | _ => 260

/-- One point of the `getClapRateHistory` series. -/
structure RatePoint where
  ts : Int
  clappingNow : Int
  pct : ℚ
deriving DecidableEq, Repr

/-- The percentage field of a history point:
`totalAgents ? (running / totalAgents) * 100 : 0`. -/
def ratePct (totalAgents running : Int) : ℚ :=
  if totalAgents = 0 then 0 else ((running : ℚ) / (totalAgents : ℚ)) * 100

/-- The backward replay loop of `getClapRateHistory`: walking the filtered
events (newest first), each `"started"` event decrements and each
`"stopped"` event increments the running count, clamped to
`[0, totalAgents]`, and a point is pushed at the event's timestamp. -/
def replayPoints (totalAgents : Int) (running : Int) :
    List ClapEvent → List RatePoint
  | [] => []
  | e :: rest =>
    let r := max 0 (min totalAgents (running + (if e.type == .started then -1 else 1)))
    ⟨e.createdAt, r, ratePct totalAgents r⟩ :: replayPoints totalAgents r rest

/-- The events `getClapRateHistory` actually replays: the event log in
descending `createdAt` order (the `by_created_at` index read with
`order("desc")`), truncated by `take(5000)`, then filtered to the lookback
window `e.createdAt >= fromTs`. -/
def usedHistoryEvents (now : Int) (range : HistoryRange)
    (eventLogDesc : List ClapEvent) : List ClapEvent :=
  let fromTs := now - windowMs range
  (eventLogDesc.take 5000).filter (fun e => fromTs ≤ e.createdAt)

/-- The chronological point series of `getClapRateHistory` before
downsampling: the anchor at `now` followed by the backward replay, then
reversed. -/
def clapRatePoints (totalAgents currentClappingNow now : Int)
    (range : HistoryRange) (eventLogDesc : List ClapEvent) : List RatePoint :=
  (⟨now, currentClappingNow, ratePct totalAgents currentClappingNow⟩
      :: replayPoints totalAgents currentClappingNow
        (usedHistoryEvents now range eventLogDesc)).reverse

/-- The stride-based downsampling of `getClapRateHistory`
(`i % stride === 0 || i === points.length - 1`). -/
def sampleStride (points : List RatePoint) (maxPoints : Nat) : List RatePoint :=
  let stride := max 1 ((points.length + maxPoints - 1) / maxPoints)
  (points.enum.filter
      (fun p => p.1 % stride == 0 || p.1 == points.length - 1)).map
    (fun p => p.2)

/-- The full `points` payload of `getClapRateHistory`. -/
def getClapRateHistory (totalAgents currentClappingNow now : Int)
    (range : HistoryRange) (eventLogDesc : List ClapEvent) : List RatePoint :=
  sampleStride (clapRatePoints totalAgents currentClappingNow now range eventLogDesc)
    (maxPointsFor range)

/-- Reading the reconstructed step series at an instant `t`: the value of the
latest point at or before `t`; an instant before the first point reads the
first point's value (the series' backward extension). -/
def countAt : List RatePoint → Int → Int
  | [], _ => 0
  | [p], _ => p.clappingNow
  | p :: q :: rest, t => if t < q.ts then p.clappingNow else countAt (q :: rest) t

/-! ### Spec-side definitions (written from the specification's words) -/

/-- Per-agent percentage exactly as the spec words it:
`elapsed = max(1, now - createdAt)`,
`liveMs = isClapping ? max(0, now - lastStateChangedAt) : 0`,
`pct = clamp01to100((cumulativeClapMs + liveMs) / elapsed * 100)`. -/
def specAgentPct (a : Agent) (now : Int) : ℚ :=
  let elapsed : Int := max 1 (now - a.createdAt)
  let liveMs : Int :=
    if a.isClapping then max 0 (now - a.lastStateChangedAt) else 0
  max 0 (min 100 (((a.cumulativeClapMs + liveMs : Int) : ℚ) / (elapsed : ℚ) * 100))

/-- Pooled group percentage exactly as the spec words it:
`clamp(sum(clap_i) / sum(elapsed_i) * 100)` over the members. -/
def specPooledPct (subset : List Agent) (now : Int) : ℚ :=
  let clapSum : Int :=
    (subset.map (fun a =>
      a.cumulativeClapMs +
        (if a.isClapping then max 0 (now - a.lastStateChangedAt) else 0))).sum
  let elapsedSum : Int := (subset.map (fun a => max 1 (now - a.createdAt))).sum
  clampPct (((clapSum : ℚ) / (elapsedSum : ℚ)) * 100)

/-! ### Helper lemmas -/

theorem clampPct_nonneg (v : ℚ) : 0 ≤ clampPct v :=
  le_max_left 0 (min 100 v)

theorem clampPct_le_100 (v : ℚ) : clampPct v ≤ 100 :=
  max_le (by norm_num) (min_le_left 100 v)

/-! ### Claims -/

/-- C1. The per-agent clap percentage returned by `computeAgentPct` (and
surfaced as the `clapPct` fields of the `listAgents` items and the
`getAgentById` view) equals the spec formula: clamp-to-[0,100] of
`(cumulativeClapMs + liveMs) / elapsed * 100` with
`elapsed = max(1, now - createdAt)` and
`liveMs = isClapping ? max(0, now - lastStateChangedAt) : 0`. -/
theorem c1_agent_pct_formula :
    (∀ (a : Agent) (now : Int), computeAgentPct a now = specAgentPct a now) ∧
    (∀ (agents : List Agent) (verifiedOnly : Bool) (now : Int),
      (listAgentsNormalized agents verifiedOnly now).map (fun it => it.clapPct) =
        (agents.filter (fun a => if verifiedOnly then a.xVerified else true)).map
          (fun a => computeAgentPct a now)) ∧
    (∀ (db : DB) (agentId : Nat) (now : Int),
      (getAgentById db agentId now).map (fun v => v.clapPct) =
        (getAgent db agentId).map (fun a => computeAgentPct a now)) := by
  refine ⟨?_, ?_, ?_⟩
  · intro a now
    simp [computeAgentPct, specAgentPct, clampPct, mul_comm, div_mul_eq_mul_div]
  · intro agents verifiedOnly now
    simp [listAgentsNormalized, List.map_map]
  · intro db agentId now
    simp [getAgentById, Option.map_map]
    rfl

/-- C7. For every agent record and every observation timestamp `now`
(clock skew included), the percentage computation's denominator is at least
`1` and the result lies in `[0, 100]`. -/
theorem c7_pct_safety :
    ∀ (a : Agent) (now : Int),
      1 ≤ max 1 (now - a.createdAt) ∧
      0 ≤ computeAgentPct a now ∧ computeAgentPct a now ≤ 100 := by
  intro a now
  exact ⟨le_max_left 1 (now - a.createdAt),
    clampPct_nonneg _, clampPct_le_100 _⟩

/-- C3. A `setClappingState` call (and a `heartbeat` call carrying a
boolean, which behaves identically): clapping time is folded into
`cumulativeClapMs` exactly on a clapping→not-clapping transition, the flag
is set, `lastStateChangedAt` is stamped only when the flag changed,
`lastHeartbeatAt` (and `updatedAt`) are always stamped, and exactly one clap
event (`started` when turning on, `stopped` when turning off) is inserted
iff the flag changed. -/
theorem c3_clap_state_transition :
    ∀ (a : Agent) (agentId : Nat) (b : Bool) (now : Int),
      heartbeat a agentId (some b) now = setClappingState a agentId b now ∧
      (setClappingState a agentId b now).changed = (a.isClapping != b) ∧
      (setClappingState a agentId b now).agent.isClapping = b ∧
      (setClappingState a agentId b now).agent.cumulativeClapMs =
        a.cumulativeClapMs +
          (if a.isClapping = true ∧ b = false then
            max 0 (now - a.lastStateChangedAt)
           else 0) ∧
      (setClappingState a agentId b now).agent.lastStateChangedAt =
        (if a.isClapping ≠ b then now else a.lastStateChangedAt) ∧
      (setClappingState a agentId b now).agent.lastHeartbeatAt = now ∧
      (setClappingState a agentId b now).agent.updatedAt = now ∧
      (setClappingState a agentId b now).event =
        (if a.isClapping ≠ b then
          some ⟨agentId, a.name, if b then .started else .stopped, now⟩
         else none) := by
  intro a agentId b now
  obtain ⟨nm, xh, xv, ic, cum, lsc, lhb, cr, up⟩ := a
  cases ic <;> cases b <;>
    simp [setClappingState, heartbeat]

/-- C4. A no-op write of the flag's current value (via
`setClappingState` or `heartbeat`) inserts no event, reports
`changed = false`, and changes nothing on the row except `lastHeartbeatAt`
and `updatedAt`. -/
theorem c4_noop_write_frame :
    ∀ (a : Agent) (agentId : Nat) (now : Int),
      setClappingState a agentId a.isClapping now =
        ⟨{ a with lastHeartbeatAt := now, updatedAt := now }, none, false⟩ ∧
      heartbeat a agentId (some a.isClapping) now =
        ⟨{ a with lastHeartbeatAt := now, updatedAt := now }, none, false⟩ := by
  intro a agentId now
  obtain ⟨nm, xh, xv, ic, cum, lsc, lhb, cr, up⟩ := a
  cases ic <;> simp [setClappingState, heartbeat]

/-- C5. `cumulativeClapMs` never decreases under any mutation
(`registerAgent` starts it at 0, `setClappingState` and `heartbeat` only
ever add a non-negative amount, the verification patches leave it alone),
it strictly changes only on a clapping→not-clapping transition, and the
true→false→true toggle with no time passing leaves it unchanged while
emitting exactly one `stopped` and one `started` event. -/
theorem c5_cumulative_monotone :
    (∀ (name : String) (xh : Option String) (now : Int),
      (registerAgent name xh now).cumulativeClapMs = 0) ∧
    (∀ (a : Agent) (agentId : Nat) (b : Bool) (now : Int),
      a.cumulativeClapMs ≤ (setClappingState a agentId b now).agent.cumulativeClapMs) ∧
    (∀ (a : Agent) (agentId : Nat) (ob : Option Bool) (now : Int),
      a.cumulativeClapMs ≤ (heartbeat a agentId ob now).agent.cumulativeClapMs) ∧
    (∀ (handle : String) (now : Int) (a : Agent),
      (applyChallengeHandlePatch handle now a).cumulativeClapMs = a.cumulativeClapMs ∧
      (applyVerifiedPatch handle now a).cumulativeClapMs = a.cumulativeClapMs) ∧
    (∀ (a : Agent) (agentId : Nat) (b : Bool) (now : Int),
      (setClappingState a agentId b now).agent.cumulativeClapMs ≠ a.cumulativeClapMs →
        a.isClapping = true ∧ b = false) ∧
    (∀ (a : Agent) (agentId : Nat) (now : Int),
      a.isClapping = true → a.lastStateChangedAt = now →
      (setClappingState (setClappingState a agentId false now).agent agentId true
          now).agent.cumulativeClapMs = a.cumulativeClapMs ∧
      (setClappingState a agentId false now).event =
        some ⟨agentId, a.name, .stopped, now⟩ ∧
      (setClappingState (setClappingState a agentId false now).agent agentId true
          now).event = some ⟨agentId, a.name, .started, now⟩) := by
  refine ⟨?_, ?_, ?_, ?_, ?_, ?_⟩
  · intro name xh now
    rfl
  · intro a agentId b now
    obtain ⟨nm, xh, xv, ic, cum, lsc, lhb, cr, up⟩ := a
    cases ic <;> cases b <;>
      simp [setClappingState, le_add_of_nonneg_right, le_max_left]
  · intro a agentId ob now
    obtain ⟨nm, xh, xv, ic, cum, lsc, lhb, cr, up⟩ := a
    cases ob with
    | none => simp [heartbeat]
    | some c =>
      cases ic <;> cases c <;>
        simp [heartbeat, le_add_of_nonneg_right, le_max_left]
  · intro handle now a
    exact ⟨rfl, rfl⟩
  · intro a agentId b now hne
    obtain ⟨nm, xh, xv, ic, cum, lsc, lhb, cr, up⟩ := a
    cases ic <;> cases b <;> simp [setClappingState] at hne ⊢
  · intro a agentId now h1 h2
    obtain ⟨nm, xh, xv, ic, cum, lsc, lhb, cr, up⟩ := a
    simp only at h1 h2
    subst h1
    subst h2
    simp [setClappingState]

theorem cohort_fold_eq_sums (now : Int) :
    ∀ (subset : List Agent) (acc : Int × Int),
      subset.foldl
        (fun acc agent =>
          let elapsed : Int := max 1 (now - agent.createdAt)
          let liveClapMs : Int :=
            if agent.isClapping then max 0 (now - agent.lastStateChangedAt) else 0
          (acc.1 + elapsed, acc.2 + agent.cumulativeClapMs + liveClapMs))
        acc =
      (acc.1 + (subset.map (fun a => max 1 (now - a.createdAt))).sum,
       acc.2 + (subset.map (fun a =>
          a.cumulativeClapMs +
            (if a.isClapping then max 0 (now - a.lastStateChangedAt) else 0))).sum) := by
  intro subset
  induction subset with
  | nil => intro acc; simp
  | cons hd tl ih =>
    intro acc
    simp only [List.foldl_cons, List.map_cons, List.sum_cons, ih]
    simp only [Prod.mk.injEq]
    constructor <;> ring

theorem elapsedSum_ge_one (now : Int) (subset : List Agent) (h : subset ≠ []) :
    1 ≤ (subset.map (fun a => max 1 (now - a.createdAt))).sum := by
  cases subset with
  | nil => exact absurd rfl h
  | cons hd tl =>
    simp only [List.map_cons, List.sum_cons]
    have h2 : 0 ≤ (tl.map (fun a => max 1 (now - a.createdAt))).sum := by
      apply List.sum_nonneg
      intro x hx
      obtain ⟨a, _, hax⟩ := List.mem_map.mp hx
      have : (1 : Int) ≤ x := hax ▸ le_max_left 1 (now - a.createdAt)
      linarith
    have h3 : (1 : Int) ≤ max 1 (now - hd.createdAt) := le_max_left _ _
    linarith

theorem groupPct_eq_specPooledPct (subset : List Agent) (now : Int)
    (h : subset ≠ []) : groupPct subset now = specPooledPct subset now := by
  unfold groupPct specPooledPct
  rw [if_neg (by simpa using h)]
  rw [cohort_fold_eq_sums now subset ((0 : Int), (0 : Int))]
  have h1 : (1 : Int) ≤ (subset.map (fun a => max 1 (now - a.createdAt))).sum :=
    elapsedSum_ge_one now subset h
  simp only [zero_add, max_eq_right h1]

/-- C2. The lifetime cohort percentages of `getCurrentStats` (overall,
verified, unverified) are the time-weighted pooled value
`clamp(sum(clap_i) / sum(elapsed_i) * 100)` over the cohort members, and for
a concrete cohort of two agents of different ages and clap states the pooled
value differs from the arithmetic mean of the members' percentages. -/
theorem c2_group_pct_pooled :
    (∀ (agents : List Agent) (now : Int), agents ≠ [] →
      (getCurrentStats agents now).lifetimeClappingPctOverall =
        specPooledPct agents now) ∧
    (∀ (agents : List Agent) (now : Int),
      agents.filter (fun a => a.xVerified) ≠ [] →
      (getCurrentStats agents now).lifetimeClappingPctVerified =
        specPooledPct (agents.filter (fun a => a.xVerified)) now) ∧
    (∀ (agents : List Agent) (now : Int),
      agents.filter (fun a => ¬a.xVerified) ≠ [] →
      (getCurrentStats agents now).lifetimeClappingPctUnverified =
        specPooledPct (agents.filter (fun a => ¬a.xVerified)) now) ∧
    ((getCurrentStats [⟨"a", none, false, false, 0, 0, 0, 0, 0⟩,
        ⟨"b", none, false, true, 0, 98, 0, 98, 0⟩] 100).lifetimeClappingPctOverall ≠
      (computeAgentPct ⟨"a", none, false, false, 0, 0, 0, 0, 0⟩ 100 +
        computeAgentPct ⟨"b", none, false, true, 0, 98, 0, 98, 0⟩ 100) / 2 ∧
      (⟨"a", none, false, false, 0, 0, 0, 0, 0⟩ : Agent).createdAt ≠
        (⟨"b", none, false, true, 0, 98, 0, 98, 0⟩ : Agent).createdAt ∧
      (⟨"a", none, false, false, 0, 0, 0, 0, 0⟩ : Agent).isClapping ≠
        (⟨"b", none, false, true, 0, 98, 0, 98, 0⟩ : Agent).isClapping) := by
  refine ⟨?_, ?_, ?_, ?_, by decide, by decide⟩
  · intro agents now h
    exact groupPct_eq_specPooledPct agents now h
  · intro agents now h
    exact groupPct_eq_specPooledPct _ now h
  · intro agents now h
    exact groupPct_eq_specPooledPct _ now h
  · simp [getCurrentStats, groupPct, clampPct, computeAgentPct]
    norm_num [max_def, min_def]

/-- Witness for C2: the pooled formula instantiated at a concrete singleton
cohort. -/
theorem c2_group_pct_pooled_witness :
    ([(⟨"a", none, false, false, 0, 0, 0, 0, 0⟩ : Agent)] ≠ []) ∧
    (getCurrentStats [⟨"a", none, false, false, 0, 0, 0, 0, 0⟩]
        100).lifetimeClappingPctOverall =
      specPooledPct [⟨"a", none, false, false, 0, 0, 0, 0, 0⟩] 100 :=
  ⟨by decide, c2_group_pct_pooled.1 [⟨"a", none, false, false, 0, 0, 0, 0, 0⟩]
    100 (by decide)⟩

/-- Witness for C5: the true→false→true toggle at a concrete agent whose
clapping state changed at the very instant of the calls. -/
theorem c5_cumulative_monotone_witness :
    (setClappingState
        (setClappingState ⟨"a", none, false, true, 7, 50, 0, 0, 0⟩ 3 false
          50).agent 3 true 50).agent.cumulativeClapMs =
      (⟨"a", none, false, true, 7, 50, 0, 0, 0⟩ : Agent).cumulativeClapMs ∧
    (setClappingState ⟨"a", none, false, true, 7, 50, 0, 0, 0⟩ 3 false 50).event =
      some ⟨3, "a", .stopped, 50⟩ ∧
    (setClappingState
        (setClappingState ⟨"a", none, false, true, 7, 50, 0, 0, 0⟩ 3 false
          50).agent 3 true 50).event = some ⟨3, "a", .started, 50⟩ :=
  c5_cumulative_monotone.2.2.2.2.2 ⟨"a", none, false, true, 7, 50, 0, 0, 0⟩ 3 50
    rfl rfl

theorem replayPoints_ts_map (total : Int) :
    ∀ (r : Int) (evs : List ClapEvent),
      (replayPoints total r evs).map (fun p => p.ts) =
        evs.map (fun e => e.createdAt) := by
  intro r evs
  induction evs generalizing r with
  | nil => rfl
  | cons e rest ih => simp [replayPoints, ih]

theorem replayPoints_clamped (total : Int) (htotal : 0 ≤ total) :
    ∀ (r : Int) (evs : List ClapEvent) (p : RatePoint),
      p ∈ replayPoints total r evs → 0 ≤ p.clappingNow ∧ p.clappingNow ≤ total := by
  intro r evs
  induction evs generalizing r with
  | nil => intro p hp; simp [replayPoints] at hp
  | cons e rest ih =>
    intro p hp
    simp only [replayPoints, List.mem_cons] at hp
    rcases hp with h | h
    · subst h
      exact ⟨le_max_left _ _, max_le htotal (min_le_left _ _)⟩
    · exact ih _ p h

theorem clapRatePoints_chronological (total cur now : Int) (range : HistoryRange)
    (log : List ClapEvent)
    (hdesc : log.Pairwise (fun e1 e2 => e2.createdAt ≤ e1.createdAt))
    (hnow : ∀ e ∈ log, e.createdAt ≤ now) :
    (clapRatePoints total cur now range log).Pairwise (fun p q => p.ts ≤ q.ts) := by
  unfold clapRatePoints
  rw [List.pairwise_reverse, List.pairwise_cons]
  have hsub : (usedHistoryEvents now range log).Sublist log := by
    unfold usedHistoryEvents
    exact (List.filter_sublist _).trans (List.take_sublist _ _)
  have hdescUsed := hdesc.sublist hsub
  have hnowUsed : ∀ e ∈ usedHistoryEvents now range log, e.createdAt ≤ now :=
    fun e he => hnow e (hsub.subset he)
  constructor
  · intro p hp
    have hmem : p.ts ∈ (replayPoints total cur
        (usedHistoryEvents now range log)).map (fun p => p.ts) :=
      List.mem_map_of_mem _ hp
    rw [replayPoints_ts_map] at hmem
    obtain ⟨e, he, hets⟩ := List.mem_map.mp hmem
    exact hets ▸ hnowUsed e he
  · have hm : ((replayPoints total cur (usedHistoryEvents now range log)).map
        (fun p => p.ts)).Pairwise (fun x y => y ≤ x) := by
      rw [replayPoints_ts_map, List.pairwise_map]
      exact hdescUsed
    rw [List.pairwise_map] at hm
    exact hm

/-- C6. `getClapRateHistory` anchors the series at `(now, current
clapping count)` (the last chronological point), every replayed point's
count stays clamped to `[0, totalAgents]`, the series comes out in
chronological order when the event log is read newest-first with all events
at or before `now`, and on the concrete spec example (10 agents, 5 clapping
now, a single `started` event one hour ago) the reconstructed count at any
instant before that event — e.g. one hour and one second ago — is 4. -/
theorem c6_history_reconstruction :
    (∀ (total cur now : Int) (range : HistoryRange) (log : List ClapEvent),
      (clapRatePoints total cur now range log).getLast? =
        some ⟨now, cur, ratePct total cur⟩) ∧
    (∀ (total : Int), 0 ≤ total →
      ∀ (r : Int) (evs : List ClapEvent) (p : RatePoint),
        p ∈ replayPoints total r evs →
          0 ≤ p.clappingNow ∧ p.clappingNow ≤ total) ∧
    (∀ (total cur now : Int) (range : HistoryRange) (log : List ClapEvent),
      log.Pairwise (fun e1 e2 => e2.createdAt ≤ e1.createdAt) →
      (∀ e ∈ log, e.createdAt ≤ now) →
      (clapRatePoints total cur now range log).Pairwise
        (fun p q => p.ts ≤ q.ts)) ∧
    (getClapRateHistory 10 5 7200000 .hour [⟨1, "x", .started, 3600000⟩] =
        [⟨3600000, 4, 40⟩, ⟨7200000, 5, 50⟩] ∧
      countAt (getClapRateHistory 10 5 7200000 .hour
        [⟨1, "x", .started, 3600000⟩]) 3599000 = 4) := by
  refine ⟨?_, replayPoints_clamped, clapRatePoints_chronological, ?_, ?_⟩
  · intro total cur now range log
    unfold clapRatePoints
    rw [List.getLast?_reverse]
    rfl
  · norm_num [getClapRateHistory, clapRatePoints, replayPoints,
      usedHistoryEvents, sampleStride, windowMs, maxPointsFor, ratePct,
      List.enum, max_def, min_def]
  · norm_num [getClapRateHistory, clapRatePoints, replayPoints,
      usedHistoryEvents, sampleStride, windowMs, maxPointsFor, ratePct,
      List.enum, max_def, min_def, countAt]

/-- Witness for C6: the chronological-order and clamping parts instantiated
on the concrete one-event log. -/
theorem c6_history_reconstruction_witness :
    (([⟨1, "x", .started, 3600000⟩] : List ClapEvent).Pairwise
      (fun e1 e2 => e2.createdAt ≤ e1.createdAt)) ∧
    (∀ e ∈ ([⟨1, "x", .started, 3600000⟩] : List ClapEvent),
      e.createdAt ≤ 7200000) ∧
    (clapRatePoints 10 5 7200000 .hour [⟨1, "x", .started, 3600000⟩]).Pairwise
      (fun p q => p.ts ≤ q.ts) :=
  ⟨by simp, by norm_num,
    c6_history_reconstruction.2.2.1 10 5 7200000 .hour
      [⟨1, "x", .started, 3600000⟩] (by simp) (by norm_num)⟩

/-- C10. `getClapRateHistory` replays at most the 5000 newest events:
the replayed list is never longer than 5000, an event sitting past position
5000 of the newest-first log is never replayed (whatever its timestamp),
and the replayed list equals the plain in-window filter of the log exactly
when the log holds at most 5000 events. -/
theorem c10_event_cap :
    (∀ (now : Int) (range : HistoryRange) (log : List ClapEvent),
      (usedHistoryEvents now range log).length ≤ 5000) ∧
    (∀ (now : Int) (range : HistoryRange) (log : List ClapEvent)
        (e : ClapEvent), log.Nodup → e ∈ log.drop 5000 →
      e ∉ usedHistoryEvents now range log) ∧
    (∀ (now : Int) (range : HistoryRange) (log : List ClapEvent),
      log.length ≤ 5000 →
      usedHistoryEvents now range log =
        log.filter (fun e => now - windowMs range ≤ e.createdAt)) := by
  refine ⟨?_, ?_, ?_⟩
  · intro now range log
    exact (List.length_filter_le _ _).trans (List.length_take_le 5000 log)
  · intro now range log e hnd hdrop hmem
    have htake : e ∈ log.take 5000 :=
      (List.mem_filter.mp hmem).1
    rw [← List.take_append_drop 5000 log] at hnd
    exact List.disjoint_of_nodup_append hnd htake hdrop
  · intro now range log hlen
    unfold usedHistoryEvents
    rw [List.take_of_length_le hlen]

/-- Witness for C10: the exactness part instantiated on a concrete one-event
log. -/
theorem c10_event_cap_witness :
    (([⟨1, "x", .started, 3600000⟩] : List ClapEvent).length ≤ 5000) ∧
    usedHistoryEvents 7200000 .hour [⟨1, "x", .started, 3600000⟩] =
      ([⟨1, "x", .started, 3600000⟩] : List ClapEvent).filter
        (fun e => 7200000 - windowMs .hour ≤ e.createdAt) :=
  ⟨by norm_num,
    c10_event_cap.2.2 7200000 .hour [⟨1, "x", .started, 3600000⟩] (by norm_num)⟩

theorem assoc_find?_patch {α : Type} (i : Nat) (f : α → α) :
    ∀ (l : List (Nat × α)),
      (l.map (fun p => if p.1 == i then (p.1, f p.2) else p)).find?
          (fun p => p.1 == i) =
        (l.find? (fun p => p.1 == i)).map (fun p => (p.1, f p.2)) := by
  intro l
  induction l with
  | nil => rfl
  | cons hd tl ih =>
    by_cases h : hd.1 = i
    · rw [List.map_cons, if_pos (by simpa using h),
        List.find?_cons_of_pos _ (by simpa using h),
        List.find?_cons_of_pos _ (by simpa using h)]
      rfl
    · rw [List.map_cons, if_neg (by simpa using h),
        List.find?_cons_of_neg _ (by simpa using h),
        List.find?_cons_of_neg _ (by simpa using h), ih]

theorem getAgent_patchAgent (db : DB) (i : Nat) (f : Agent → Agent) :
    getAgent (patchAgent db i f) i = (getAgent db i).map f := by
  unfold getAgent patchAgent
  simp only [assoc_find?_patch]
  cases db.agents.find? (fun p => p.1 == i) <;> rfl

theorem getChallenge_patchChallenge (db : DB) (i : Nat) (f : Challenge → Challenge) :
    getChallenge (patchChallenge db i f) i = (getChallenge db i).map f := by
  unfold getChallenge patchChallenge
  simp only [assoc_find?_patch]
  cases db.challenges.find? (fun p => p.1 == i) <;> rfl

theorem getChallenge_patchAgent (db : DB) (i j : Nat) (f : Agent → Agent) :
    getChallenge (patchAgent db i f) j = getChallenge db j := rfl

theorem getAgent_patchChallenge (db : DB) (i j : Nat) (f : Challenge → Challenge) :
    getAgent (patchChallenge db i f) j = getAgent db j := rfl

/-- Counterexample for C8 as stated: the code tests
`if (challenge.completedAt)`, which is JS truthiness, so a challenge whose
`completedAt` is `0` (the epoch) is treated as never completed and the call
succeeds — completing it a second time — instead of failing. -/
theorem c8_counterexample :
    (getChallenge ⟨[(1, ⟨"a", none, false, false, 0, 0, 0, 0, 0⟩)],
        [(1, ⟨1, "h", "t", 0, 10, some 0, none⟩)]⟩ 1).map
        (fun c => c.completedAt) = some (some 0) ∧
    completeXVerificationChallenge
        ⟨[(1, ⟨"a", none, false, false, 0, 0, 0, 0, 0⟩)],
          [(1, ⟨1, "h", "t", 0, 10, some 0, none⟩)]⟩ 1 none 5 =
      .ok ⟨[(1, ⟨"a", some "h", true, false, 0, 0, 0, 0, 5⟩)],
        [(1, ⟨1, "h", "t", 0, 10, some 5, none⟩)]⟩ := by
  constructor
  · rfl
  · rfl

/-- C8 (amended). `completeXVerificationChallenge` fails with a distinct
error when the challenge is missing, when its `completedAt` is set to a
nonzero (i.e. JS-truthy) timestamp, or when (not being truthy-completed) it
is past `expiresAt`; once `expiresAt` has passed no call returns success
(every call errors); and when none of these hold and no conflicting
verified owner exists, it stamps `completedAt` on the challenge and marks
the challenge's agent verified with the challenge's handle bound.  (An
error aborts the Convex transaction, leaving all state unchanged.) -/
theorem c8_complete_verification :
    ∀ (db : DB) (cid : Nat) (url : Option String) (now : Int),
      (getChallenge db cid = none →
        completeXVerificationChallenge db cid url now =
          .error .challengeNotFound) ∧
      (∀ ch : Challenge, getChallenge db cid = some ch →
        numTruthy ch.completedAt = true →
        completeXVerificationChallenge db cid url now =
          .error .alreadyCompleted) ∧
      (∀ ch : Challenge, getChallenge db cid = some ch →
        numTruthy ch.completedAt = false → ch.expiresAt < now →
        completeXVerificationChallenge db cid url now = .error .expired) ∧
      (∀ ch : Challenge, getChallenge db cid = some ch → ch.expiresAt < now →
        ∀ db2 : DB, completeXVerificationChallenge db cid url now ≠ .ok db2) ∧
      (∀ ch : Challenge, getChallenge db cid = some ch →
        numTruthy ch.completedAt = false → ¬ch.expiresAt < now →
        (∀ (oid : Nat) (oa : Agent),
          existingVerifiedOwner db ch.xHandle = some (oid, oa) →
          oid = ch.agentId) →
        completeXVerificationChallenge db cid url now =
          .ok (patchAgent
            (patchChallenge db cid (fun c =>
              { c with completedAt := some now, matchedPostUrl := url }))
            ch.agentId (applyVerifiedPatch ch.xHandle now)) ∧
        getChallenge (patchAgent
            (patchChallenge db cid (fun c =>
              { c with completedAt := some now, matchedPostUrl := url }))
            ch.agentId (applyVerifiedPatch ch.xHandle now)) cid =
          some { ch with completedAt := some now, matchedPostUrl := url } ∧
        getAgent (patchAgent
            (patchChallenge db cid (fun c =>
              { c with completedAt := some now, matchedPostUrl := url }))
            ch.agentId (applyVerifiedPatch ch.xHandle now)) ch.agentId =
          (getAgent db ch.agentId).map (applyVerifiedPatch ch.xHandle now)) := by
  intro db cid url now
  refine ⟨?_, ?_, ?_, ?_, ?_⟩
  · intro hnone
    unfold completeXVerificationChallenge
    rw [hnone]
  · intro ch hch hcomp
    unfold completeXVerificationChallenge
    rw [hch]
    simp [hcomp]
  · intro ch hch hcomp hexp
    unfold completeXVerificationChallenge
    rw [hch]
    simp [hcomp, hexp]
  · intro ch hch hexp db2
    unfold completeXVerificationChallenge
    rw [hch]
    by_cases hcomp : numTruthy ch.completedAt = true
    · simp [hcomp]
    · simp [hcomp, hexp]
  · intro ch hch hcomp hexp hconf
    have hres : completeXVerificationChallenge db cid url now =
        .ok (patchAgent
          (patchChallenge db cid (fun c =>
            { c with completedAt := some now, matchedPostUrl := url }))
          ch.agentId (applyVerifiedPatch ch.xHandle now)) := by
      unfold completeXVerificationChallenge
      rw [hch]
      rcases hex : existingVerifiedOwner db ch.xHandle with _ | ⟨oid, oa⟩
      · simp [hcomp, hexp, hex]
      · have hoid := hconf oid oa hex
        simp [hcomp, hexp, hex, hoid]
    refine ⟨hres, ?_, ?_⟩
    · rw [getChallenge_patchAgent, getChallenge_patchChallenge, hch]
      rfl
    · rw [getAgent_patchAgent, getAgent_patchChallenge]

/-- Witness for C8: the success path at a concrete database. -/
theorem c8_complete_verification_witness :
    completeXVerificationChallenge
        ⟨[(1, ⟨"a", none, false, false, 0, 0, 0, 0, 0⟩)],
          [(1, ⟨1, "h", "t", 0, 100, none, none⟩)]⟩ 1 (some "u") 50 =
      .ok (patchAgent
        (patchChallenge
          ⟨[(1, ⟨"a", none, false, false, 0, 0, 0, 0, 0⟩)],
            [(1, ⟨1, "h", "t", 0, 100, none, none⟩)]⟩ 1
          (fun c => { c with completedAt := some 50, matchedPostUrl := some "u" }))
        1 (applyVerifiedPatch "h" 50)) ∧
    getChallenge (patchAgent
        (patchChallenge
          ⟨[(1, ⟨"a", none, false, false, 0, 0, 0, 0, 0⟩)],
            [(1, ⟨1, "h", "t", 0, 100, none, none⟩)]⟩ 1
          (fun c => { c with completedAt := some 50, matchedPostUrl := some "u" }))
        1 (applyVerifiedPatch "h" 50)) 1 =
      some ⟨1, "h", "t", 0, 100, some 50, some "u"⟩ ∧
    getAgent (patchAgent
        (patchChallenge
          ⟨[(1, ⟨"a", none, false, false, 0, 0, 0, 0, 0⟩)],
            [(1, ⟨1, "h", "t", 0, 100, none, none⟩)]⟩ 1
          (fun c => { c with completedAt := some 50, matchedPostUrl := some "u" }))
        1 (applyVerifiedPatch "h" 50)) 1 =
      (getAgent ⟨[(1, ⟨"a", none, false, false, 0, 0, 0, 0, 0⟩)],
            [(1, ⟨1, "h", "t", 0, 100, none, none⟩)]⟩ 1).map
        (applyVerifiedPatch "h" 50) :=
  (c8_complete_verification
      ⟨[(1, ⟨"a", none, false, false, 0, 0, 0, 0, 0⟩)],
        [(1, ⟨1, "h", "t", 0, 100, none, none⟩)]⟩ 1 (some "u") 50).2.2.2.2
    ⟨1, "h", "t", 0, 100, none, none⟩ rfl rfl (by decide)
    (fun oid oa h => Option.noConfusion h)

/-- C9. While a handle is verified-owned by one agent, any different
agent's attempt to create a verification challenge for that handle, or to
complete a challenge carrying that handle, throws the conflict error (the
thrown error aborts the transaction, so no record changes). -/
theorem c9_handle_conflict :
    (∀ (db : DB) (agentB : Nat) (rawHandle challengeText : String)
        (expiresAt now : Int) (newId : Nat) (ownerId : Nat) (ownerA b : Agent),
      getAgent db agentB = some b →
      existingVerifiedOwner db (normalizeXHandle rawHandle) =
        some (ownerId, ownerA) →
      ownerId ≠ agentB →
      createXVerificationChallenge db agentB rawHandle challengeText expiresAt
        now newId = .error .handleConflict) ∧
    (∀ (db : DB) (cid : Nat) (url : Option String) (now : Int) (ch : Challenge)
        (ownerId : Nat) (ownerA : Agent),
      getChallenge db cid = some ch →
      numTruthy ch.completedAt = false →
      ¬ch.expiresAt < now →
      existingVerifiedOwner db ch.xHandle = some (ownerId, ownerA) →
      ownerId ≠ ch.agentId →
      completeXVerificationChallenge db cid url now = .error .handleConflict) := by
  constructor
  · intro db agentB rawHandle challengeText expiresAt now newId ownerId ownerA b
      hb hown hne
    unfold createXVerificationChallenge
    rw [hb]
    simp [hown, hne]
  · intro db cid url now ch ownerId ownerA hch hcomp hexp hown hne
    unfold completeXVerificationChallenge
    rw [hch]
    simp [hcomp, hexp, hown, hne]

/-- Witness for C9: handle `"jeb"` verified-owned by agent 1; completing
agent 2's challenge for `"jeb"` hits the conflict error. -/
theorem c9_handle_conflict_witness :
    completeXVerificationChallenge
        ⟨[(1, ⟨"a", some "jeb", true, false, 0, 0, 0, 0, 0⟩),
          (2, ⟨"b", none, false, false, 0, 0, 0, 0, 0⟩)],
          [(7, ⟨2, "jeb", "t", 0, 100, none, none⟩)]⟩ 7 none 50 =
      .error .handleConflict :=
  c9_handle_conflict.2
    ⟨[(1, ⟨"a", some "jeb", true, false, 0, 0, 0, 0, 0⟩),
      (2, ⟨"b", none, false, false, 0, 0, 0, 0, 0⟩)],
      [(7, ⟨2, "jeb", "t", 0, 100, none, none⟩)]⟩ 7 none 50
    ⟨2, "jeb", "t", 0, 100, none, none⟩ 1
    ⟨"a", some "jeb", true, false, 0, 0, 0, 0, 0⟩ rfl rfl (by decide) rfl
    (by decide)

end OpenClapp
